import Mathlib

/-!
Verification of the Klippy API helper component (`moonraker/components/klippy_apis.py`)
against its natural-language specification.

The embedding models:
* controller replies and request parameters as a JSON-like value type `JVal`;
* the transport (`self.klippy.request`) as a function from method name and
  params to `Except SrvError JVal` (the spec's transport contract: all
  transport/protocol failures surface as server errors);
* the distinguished default (`SENTINEL`) as `Option JVal` with `none` playing
  the sentinel role and `some x` a concrete fallback;
* the host subscription registry as an association list
  `List (String × Option (List String))`, with `none` meaning "all fields";
* the filesystem side effects of `start_print` / `copy_file_to_cache` as an
  explicit `ApiState` record threaded through the operations.
-/

/-- JSON-like values: the shape of controller request params and replies. -/
inductive JVal where
  | null
  | b (x : Bool)
  | n (x : Int)
  | s (x : String)
  | arr (xs : List JVal)
  | obj (kvs : List (String × JVal))

/-- A server error (`self.server.error`): message and status code.
`str(e)` of such an error is its message. -/
structure SrvError where
  msg : String
  code : Nat
deriving DecidableEq

/-- Python-level errors that can escape the operations modelled here:
server errors, the IndexError from `filename[0]` on an empty string, and the
OSError from `os.path.getsize` on a missing file. -/
inductive PyErr where
  | srv (e : SrvError)
  | indexError
  | osError
deriving DecidableEq

/-- The transport: `self.klippy.request(WebRequest(method, params))`, viewed
as a function of the method name and the params value. -/
def Transport := String → JVal → Except SrvError JVal

def GCODE_ENDPOINT : String := "gcode/script"

def SUBSCRIPTION_ENDPOINT : String := "objects/subscribe"

def STATUS_ENDPOINT : String := "objects/query"

def OBJ_LIST_ENDPOINT : String := "objects/list"

/-- First-match association-list lookup (Python `dict` read / `in` test). -/
def lookupKey {α : Type} (m : List (String × α)) (k : String) : Option α :=
  match m with
  | [] => none
  | (k', v) :: rest => if k' = k then some v else lookupKey rest k

/-- Python `dict` assignment `m[k] = v`: replace the binding if the key is
present, otherwise append it. -/
def setKey {α : Type} (m : List (String × α)) (k : String) (v : α) : List (String × α) :=
  match m with
  | [] => [(k, v)]
  | (k', v') :: rest => if k' = k then (k, v) :: rest else (k', v') :: setKey rest k v

/-- `KlippyAPI._send_klippy_request`: forward to the transport; on a server
error re-raise when `default` is the sentinel (`none`), otherwise return the
default. -/
def send_klippy_request (transport : Transport) (method : String) (params : JVal)
    (default : Option JVal) : Except SrvError JVal :=
  match transport method params with
  | Except.ok r => Except.ok r
  | Except.error e =>
    match default with
    | none => Except.error e
    | some d => Except.ok d

/-- The reply-unwrapping idiom `if isinstance(result, dict) and k in result:
return result[k]` / `return result`. -/
def unwrapKey (k : String) (v : JVal) : JVal :=
  match v with
  | JVal.obj kvs =>
    match lookupKey kvs k with
    | some w => w
    | none => v
  | _ => v

/-- Whether a value is a mapping containing the key `k`
(`isinstance(v, dict) and k in v`). -/
def hasKey (v : JVal) (k : String) : Bool :=
  match v with
  | JVal.obj kvs => (lookupKey kvs k).isSome
  | _ => false

/-- Params `{'script': script}` of a gcode request. -/
def scriptParams (script : String) : JVal :=
  JVal.obj [("script", JVal.s script)]

/-- `KlippyAPI.run_gcode`. -/
def run_gcode (transport : Transport) (script : String) (default : Option JVal) :
    Except SrvError JVal :=
  send_klippy_request transport GCODE_ENDPOINT (scriptParams script) default

/-- `KlippyAPI.do_restart`: run the gcode with the sentinel default; a
"Klippy Disconnected" server error becomes the success value "ok", any other
error is re-raised. -/
def do_restart (transport : Transport) (gc : String) : Except SrvError JVal :=
  match run_gcode transport gc none with
  | Except.ok r => Except.ok r
  | Except.error e =>
    if e.msg = "Klippy Disconnected" then Except.ok (JVal.s "ok") else Except.error e

theorem send_klippy_request_ok {transport : Transport} {method : String} {params : JVal}
    {r : JVal} (h : transport method params = Except.ok r) (default : Option JVal) :
    send_klippy_request transport method params default = Except.ok r := by
  unfold send_klippy_request
  rw [h]

theorem unwrapKey_of_lookup {kvs : List (String × JVal)} {k : String} {v : JVal}
    (h : lookupKey kvs k = some v) : unwrapKey k (JVal.obj kvs) = v := by
  simp [unwrapKey, h]

theorem unwrapKey_of_no_key {r : JVal} {k : String} (h : hasKey r k = false) :
    unwrapKey k r = r := by
  cases r with
  | obj kvs =>
    simp only [hasKey] at h
    cases hl : lookupKey kvs k with
    | none => simp [unwrapKey, hl]
    | some w => rw [hl] at h; simp [Option.isSome] at h
  | null => rfl
  | b x => rfl
  | n x => rfl
  | s x => rfl
  | arr xs => rfl

/-- C1: with the sentinel default, a transport failure is re-raised unchanged;
with any concrete default X, the call returns X and never raises, for every
method and params. -/
theorem send_default_contract (transport : Transport) (method : String) (params : JVal)
    (e : SrvError) (hf : transport method params = Except.error e) :
    send_klippy_request transport method params none = Except.error e ∧
    ∀ X : JVal, send_klippy_request transport method params (some X) = Except.ok X := by
  constructor
  · unfold send_klippy_request
    rw [hf]
  · intro X
    unfold send_klippy_request
    rw [hf]

def boomTransport : Transport := fun _ _ => Except.error ⟨"Service Unavailable", 503⟩

theorem send_default_contract_witness :
    send_klippy_request boomTransport "info" (JVal.obj []) none
      = Except.error ⟨"Service Unavailable", 503⟩ ∧
    send_klippy_request boomTransport "info" (JVal.obj []) (some JVal.null)
      = Except.ok JVal.null := by
  have h := send_default_contract boomTransport "info" (JVal.obj [])
    ⟨"Service Unavailable", 503⟩ rfl
  exact ⟨h.1, h.2 JVal.null⟩

/-- C7: when the gcode request fails with the "Klippy Disconnected" server
error, restart returns the success value "ok"; any other server error is
re-raised to the caller. -/
theorem do_restart_disconnect_is_ok (transport : Transport) (gc : String) (e : SrvError)
    (hf : transport GCODE_ENDPOINT (scriptParams gc) = Except.error e) :
    (e.msg = "Klippy Disconnected" → do_restart transport gc = Except.ok (JVal.s "ok")) ∧
    (e.msg ≠ "Klippy Disconnected" → do_restart transport gc = Except.error e) := by
  have hrun : run_gcode transport gc none = Except.error e := by
    unfold run_gcode send_klippy_request
    rw [hf]
  constructor
  · intro hmsg
    unfold do_restart
    rw [hrun]
    simp [hmsg]
  · intro hmsg
    unfold do_restart
    rw [hrun]
    simp [hmsg]

def disconnectTransport : Transport := fun _ _ => Except.error ⟨"Klippy Disconnected", 503⟩

theorem do_restart_disconnect_is_ok_witness :
    do_restart disconnectTransport "RESTART" = Except.ok (JVal.s "ok") ∧
    do_restart boomTransport "RESTART" = Except.error ⟨"Service Unavailable", 503⟩ := by
  constructor
  · exact (do_restart_disconnect_is_ok disconnectTransport "RESTART"
      ⟨"Klippy Disconnected", 503⟩ rfl).1 rfl
  · exact (do_restart_disconnect_is_ok boomTransport "RESTART"
      ⟨"Service Unavailable", 503⟩ rfl).2 (by decide)

/-- The host subscription registry (`self.host_subscription`): object name to
either `none` ("all fields", the Python `None`) or a finite field list. -/
abbrev Subscription := List (String × Option (List String))

/-- The field-set union `list(set(prev) | set(items))`: membership is
"in either list"; the concrete order the Python set produces is unspecified. -/
def pyUnion (prev items : List String) : List String :=
  (prev ++ items).dedup

/-- One iteration of the merge loop in `KlippyAPI.subscribe_objects`: update
the registry entry for one requested object. -/
def mergeStep (sub : Subscription) (e : String × Option (List String)) : Subscription :=
  match lookupKey sub e.1 with
  | some prev =>
    match e.2, prev with
    | some its, some prv => setKey sub e.1 (some (pyUnion prv its))
    | _, _ => setKey sub e.1 none
  | none => setKey sub e.1 e.2

/-- The whole merge loop of `KlippyAPI.subscribe_objects`: fold the requested
mapping into the registry. -/
def mergeSubscription (sub requested : Subscription) : Subscription :=
  requested.foldl mergeStep sub

/-- The registry as it appears in the request params: `None` becomes JSON
null, a field list becomes a JSON array of strings. -/
def subscriptionToJVal (sub : Subscription) : JVal :=
  JVal.obj (sub.map fun e =>
    (e.1, match e.2 with
          | none => JVal.null
          | some fs => JVal.arr (fs.map JVal.s)))

/-- Observable outcome of one `subscribe_objects` call: the registry after the
merge loop, the params actually dispatched, and the returned or raised value. -/
structure SubscribeOut where
  newSub : Subscription
  sentParams : JVal
  result : Except SrvError JVal

/-- `KlippyAPI.subscribe_objects`: merge the requested set into the registry,
send the whole registry via `objects/subscribe`, unwrap the reply's `status`. -/
def subscribe_objects (sub requested : Subscription) (transport : Transport)
    (default : Option JVal) : SubscribeOut :=
  let newSub := mergeSubscription sub requested
  let params := JVal.obj [("objects", subscriptionToJVal newSub)]
  match send_klippy_request transport SUBSCRIPTION_ENDPOINT params default with
  | Except.error e => ⟨newSub, params, Except.error e⟩
  | Except.ok r => ⟨newSub, params, Except.ok (unwrapKey "status" r)⟩

/-- A sequence of `subscribe_objects` merge loops over the same object, each
requesting a finite field set. -/
def mergeSeq (sub : Subscription) (obj : String) (sets : List (List String)) : Subscription :=
  sets.foldl (fun s fields => mergeSubscription s [(obj, some fields)]) sub

theorem lookupKey_setKey_self {α : Type} (m : List (String × α)) (k : String) (v : α) :
    lookupKey (setKey m k v) k = some v := by
  induction m with
  | nil => simp [setKey, lookupKey]
  | cons e rest ih =>
    obtain ⟨k', v'⟩ := e
    by_cases h : k' = k
    · simp [setKey, h, lookupKey]
    · simp [setKey, h, lookupKey, ih]

theorem lookupKey_setKey_ne {α : Type} (m : List (String × α)) {k j : String} (v : α)
    (h : k ≠ j) : lookupKey (setKey m k v) j = lookupKey m j := by
  induction m with
  | nil => simp [setKey, lookupKey, h]
  | cons e rest ih =>
    obtain ⟨k', v'⟩ := e
    by_cases hk : k' = k
    · simp [setKey, hk, lookupKey, h]
    · simp [setKey, hk, lookupKey, ih]

theorem mergeStep_lookup_other (sub : Subscription) (e : String × Option (List String))
    {obj : String} (h : e.1 ≠ obj) :
    lookupKey (mergeStep sub e) obj = lookupKey sub obj := by
  unfold mergeStep
  cases hl : lookupKey sub e.1 with
  | none => exact lookupKey_setKey_ne sub e.2 h
  | some prev =>
    cases hit : e.2 with
    | none => exact lookupKey_setKey_ne sub none h
    | some its =>
      cases prev with
      | none => exact lookupKey_setKey_ne sub none h
      | some prv => exact lookupKey_setKey_ne sub (some (pyUnion prv its)) h

theorem mergeStep_allfields (sub : Subscription) (e : String × Option (List String))
    {obj : String} (h : lookupKey sub obj = some none) :
    lookupKey (mergeStep sub e) obj = some none := by
  by_cases he : e.1 = obj
  · subst he
    unfold mergeStep
    rw [h]
    cases e.2 with
    | none => exact lookupKey_setKey_self sub e.1 none
    | some its => exact lookupKey_setKey_self sub e.1 none
  · rw [mergeStep_lookup_other sub e he]
    exact h

theorem mergeSubscription_allfields (requested : Subscription) :
    ∀ sub : Subscription, ∀ obj : String, lookupKey sub obj = some none →
      lookupKey (mergeSubscription sub requested) obj = some none := by
  induction requested with
  | nil => intro sub obj h; exact h
  | cons e rest ih =>
    intro sub obj h
    exact ih (mergeStep sub e) obj (mergeStep_allfields sub e h)

/-- C2: once an object's registry entry is AllFields (`none`), any sequence of
later merge loops — whatever field lists they request, for this object or
others — leaves the entry AllFields. -/
theorem allfields_never_narrowed (sub : Subscription) (obj : String)
    (h : lookupKey sub obj = some none) (calls : List Subscription) :
    lookupKey (calls.foldl (fun s c => mergeSubscription s c) sub) obj = some none := by
  induction calls generalizing sub with
  | nil => exact h
  | cons c rest ih =>
    exact ih (mergeSubscription sub c) (mergeSubscription_allfields c sub obj h)

theorem allfields_never_narrowed_witness :
    lookupKey [("extruder", (none : Option (List String)))] "extruder" = some none ∧
    lookupKey
      ([[("extruder", some ["temperature"])], [("extruder", some [])]].foldl
        (fun s c => mergeSubscription s c)
        [("extruder", (none : Option (List String)))]) "extruder" = some none := by
  refine ⟨rfl, ?_⟩
  exact allfields_never_narrowed [("extruder", none)] "extruder" rfl
    [[("extruder", some ["temperature"])], [("extruder", some [])]]

theorem mem_pyUnion {x : String} {a b : List String} :
    x ∈ pyUnion a b ↔ x ∈ a ∨ x ∈ b := by
  simp [pyUnion, List.mem_dedup, List.mem_append]

theorem mergeStep_fields_self (sub : Subscription) (obj : String) (S : List String)
    {L : List String} (h : lookupKey sub obj = some (some L)) :
    lookupKey (mergeStep sub (obj, some S)) obj = some (some (pyUnion L S)) := by
  unfold mergeStep
  rw [h]
  exact lookupKey_setKey_self sub obj (some (pyUnion L S))

theorem mergeStep_fields_new (sub : Subscription) (obj : String) (S : List String)
    (h : lookupKey sub obj = none) :
    lookupKey (mergeStep sub (obj, some S)) obj = some (some S) := by
  unfold mergeStep
  rw [h]
  exact lookupKey_setKey_self sub obj (some S)

theorem mergeSeq_fields (obj : String) (sets : List (List String)) :
    ∀ sub : Subscription, ∀ L : List String, lookupKey sub obj = some (some L) →
      ∃ L' : List String, lookupKey (mergeSeq sub obj sets) obj = some (some L') ∧
        ∀ x : String, x ∈ L' ↔ x ∈ L ∨ ∃ S ∈ sets, x ∈ S := by
  induction sets with
  | nil =>
    intro sub L h
    exact ⟨L, h, by simp⟩
  | cons S rest ih =>
    intro sub L h
    have hstep : lookupKey (mergeSubscription sub [(obj, some S)]) obj
        = some (some (pyUnion L S)) := mergeStep_fields_self sub obj S h
    obtain ⟨L', hL', hmem⟩ := ih (mergeSubscription sub [(obj, some S)]) (pyUnion L S) hstep
    refine ⟨L', hL', fun x => ?_⟩
    rw [hmem x, mem_pyUnion]
    constructor
    · rintro ((hx | hx) | ⟨T, hT, hx⟩)
      · exact Or.inl hx
      · exact Or.inr ⟨S, List.mem_cons_self S rest, hx⟩
      · exact Or.inr ⟨T, List.mem_cons_of_mem S hT, hx⟩
    · rintro (hx | ⟨T, hT, hx⟩)
      · exact Or.inl (Or.inl hx)
      · rcases List.mem_cons.mp hT with hTS | hTrest
        · exact Or.inl (Or.inr (hTS ▸ hx))
        · exact Or.inr ⟨T, hTrest, hx⟩

theorem mergeSeq_union (sub : Subscription) (obj : String) (sets : List (List String))
    (h : lookupKey sub obj = none) (hne : sets ≠ []) :
    ∃ L : List String, lookupKey (mergeSeq sub obj sets) obj = some (some L) ∧
      ∀ x : String, x ∈ L ↔ ∃ S ∈ sets, x ∈ S := by
  cases sets with
  | nil => exact absurd rfl hne
  | cons S rest =>
    have hfirst : lookupKey (mergeSubscription sub [(obj, some S)]) obj
        = some (some S) := mergeStep_fields_new sub obj S h
    obtain ⟨L, hL, hmem⟩ := mergeSeq_fields obj rest (mergeSubscription sub [(obj, some S)]) S hfirst
    refine ⟨L, hL, fun x => ?_⟩
    rw [hmem x]
    constructor
    · rintro (hx | ⟨T, hT, hx⟩)
      · exact ⟨S, List.mem_cons_self S rest, hx⟩
      · exact ⟨T, List.mem_cons_of_mem S hT, hx⟩
    · rintro ⟨T, hT, hx⟩
      rcases List.mem_cons.mp hT with hTS | hTrest
      · exact Or.inl (hTS ▸ hx)
      · exact Or.inr ⟨T, hTrest, hx⟩

/-- C3: starting from a registry without the object, a nonempty sequence of
merges with finite field sets S1, S2, … leaves the object bound to a finite
list whose members are exactly the union of the Si; permuting the sequence
yields a set-equal field list. -/
theorem merge_fields_union (sub : Subscription) (obj : String) (sets : List (List String))
    (h : lookupKey sub obj = none) (hne : sets ≠ []) :
    ∃ L : List String, lookupKey (mergeSeq sub obj sets) obj = some (some L) ∧
      (∀ x : String, x ∈ L ↔ ∃ S ∈ sets, x ∈ S) ∧
      ∀ sets' : List (List String), sets'.Perm sets →
        ∃ L' : List String, lookupKey (mergeSeq sub obj sets') obj = some (some L') ∧
          ∀ x : String, x ∈ L' ↔ x ∈ L := by
  obtain ⟨L, hL, hmem⟩ := mergeSeq_union sub obj sets h hne
  refine ⟨L, hL, hmem, fun sets' hp => ?_⟩
  have hne' : sets' ≠ [] := by
    intro hnil
    subst hnil
    exact hne hp.symm.eq_nil
  obtain ⟨L', hL', hmem'⟩ := mergeSeq_union sub obj sets' h hne'
  refine ⟨L', hL', fun x => ?_⟩
  rw [hmem' x, hmem x]
  constructor
  · rintro ⟨S, hS, hx⟩
    exact ⟨S, hp.subset hS, hx⟩
  · rintro ⟨S, hS, hx⟩
    exact ⟨S, hp.symm.subset hS, hx⟩

theorem merge_fields_union_witness :
    ∃ L : List String,
      lookupKey (mergeSeq [] "extruder" [["temperature", "target"], ["target", "power"]])
        "extruder" = some (some L) ∧
      (∀ x : String,
        x ∈ L ↔ ∃ S ∈ [["temperature", "target"], ["target", "power"]], x ∈ S) ∧
      ∀ sets' : List (List String),
        sets'.Perm [["temperature", "target"], ["target", "power"]] →
          ∃ L' : List String,
            lookupKey (mergeSeq [] "extruder" sets') "extruder" = some (some L') ∧
            ∀ x : String, x ∈ L' ↔ x ∈ L :=
  merge_fields_union [] "extruder" [["temperature", "target"], ["target", "power"]]
    rfl (by decide)

theorem mergeStep_keeps_key (sub : Subscription) (e : String × Option (List String))
    (k : String) (h : (lookupKey sub k).isSome = true) :
    (lookupKey (mergeStep sub e) k).isSome = true := by
  by_cases hk : e.1 = k
  · subst hk
    unfold mergeStep
    cases hl : lookupKey sub e.1 with
    | none => rw [lookupKey_setKey_self]; rfl
    | some prev =>
      cases e.2 with
      | none => rw [lookupKey_setKey_self]; rfl
      | some its =>
        cases prev with
        | none => rw [lookupKey_setKey_self]; rfl
        | some prv => rw [lookupKey_setKey_self]; rfl
  · rw [mergeStep_lookup_other sub e hk]
    exact h

theorem mergeSubscription_keeps_key (requested : Subscription) :
    ∀ sub : Subscription, ∀ k : String, (lookupKey sub k).isSome = true →
      (lookupKey (mergeSubscription sub requested) k).isSome = true := by
  induction requested with
  | nil => intro sub k h; exact h
  | cons e rest ih =>
    intro sub k h
    exact ih (mergeStep sub e) k (mergeStep_keeps_key sub e k h)

/-- C4: a subscribe call dispatches the entire accumulated registry (every
previously registered object is still present in the sent mapping, not only
the newly requested ones) on `objects/subscribe`, and returns the reply's
`status` value when the reply is a mapping containing `status`, otherwise the
raw reply. -/
theorem subscribe_objects_sends_full_set (sub requested : Subscription)
    (transport : Transport) (default : Option JVal) (r : JVal)
    (hr : transport SUBSCRIPTION_ENDPOINT
      (JVal.obj [("objects", subscriptionToJVal (mergeSubscription sub requested))])
      = Except.ok r) :
    (subscribe_objects sub requested transport default).sentParams
      = JVal.obj [("objects", subscriptionToJVal (mergeSubscription sub requested))] ∧
    (subscribe_objects sub requested transport default).newSub
      = mergeSubscription sub requested ∧
    (∀ k : String, (lookupKey sub k).isSome = true →
      (lookupKey (subscribe_objects sub requested transport default).newSub k).isSome
        = true) ∧
    (∀ kvs : List (String × JVal), ∀ v : JVal, r = JVal.obj kvs →
      lookupKey kvs "status" = some v →
      (subscribe_objects sub requested transport default).result = Except.ok v) ∧
    (hasKey r "status" = false →
      (subscribe_objects sub requested transport default).result = Except.ok r) := by
  have hs := send_klippy_request_ok hr default
  refine ⟨?_, ?_, ?_, ?_, ?_⟩
  · simp [subscribe_objects, hs]
  · simp [subscribe_objects, hs]
  · intro k hk
    have hnew : (subscribe_objects sub requested transport default).newSub
        = mergeSubscription sub requested := by simp [subscribe_objects, hs]
    rw [hnew]
    exact mergeSubscription_keeps_key requested sub k hk
  · intro kvs v hkvs hv
    subst hkvs
    simp [subscribe_objects, hs, unwrapKey_of_lookup hv]
  · intro hnk
    simp [subscribe_objects, hs, unwrapKey_of_no_key hnk]

def statusReplyTransport : Transport :=
  fun _ _ => Except.ok (JVal.obj [("status", JVal.obj [("extruder", JVal.obj [])])])

theorem subscribe_objects_sends_full_set_witness :
    (subscribe_objects [("toolhead", none)] [("extruder", some ["temperature"])]
        statusReplyTransport none).sentParams
      = JVal.obj [("objects", subscriptionToJVal
          (mergeSubscription [("toolhead", none)] [("extruder", some ["temperature"])]))] ∧
    (subscribe_objects [("toolhead", none)] [("extruder", some ["temperature"])]
        statusReplyTransport none).result
      = Except.ok (JVal.obj [("extruder", JVal.obj [])]) := by
  have h := subscribe_objects_sends_full_set [("toolhead", none)]
    [("extruder", some ["temperature"])] statusReplyTransport none
    (JVal.obj [("status", JVal.obj [("extruder", JVal.obj [])])]) rfl
  exact ⟨h.1, h.2.2.2.1 [("status", JVal.obj [("extruder", JVal.obj [])])]
    (JVal.obj [("extruder", JVal.obj [])]) rfl rfl⟩

/-- C10: the merge is committed to the registry before the request is
dispatched; when the transport fails, the registry still holds the merged
state — the error is propagated for the sentinel default and replaced by the
fallback otherwise, but the merge is never rolled back. -/
theorem subscribe_merge_survives_send_failure (sub requested : Subscription)
    (transport : Transport) (e : SrvError)
    (hf : transport SUBSCRIPTION_ENDPOINT
      (JVal.obj [("objects", subscriptionToJVal (mergeSubscription sub requested))])
      = Except.error e) :
    (∀ default : Option JVal,
      (subscribe_objects sub requested transport default).newSub
        = mergeSubscription sub requested) ∧
    (subscribe_objects sub requested transport none).result = Except.error e ∧
    ∀ d : JVal,
      (subscribe_objects sub requested transport (some d)).result
        = Except.ok (unwrapKey "status" d) := by
  have hnone : send_klippy_request transport SUBSCRIPTION_ENDPOINT
      (JVal.obj [("objects", subscriptionToJVal (mergeSubscription sub requested))]) none
      = Except.error e := by
    unfold send_klippy_request
    rw [hf]
  refine ⟨?_, ?_, ?_⟩
  · intro default
    unfold subscribe_objects
    cases hsend : send_klippy_request transport SUBSCRIPTION_ENDPOINT
        (JVal.obj [("objects", subscriptionToJVal (mergeSubscription sub requested))])
        default with
    | ok r => simp [hsend]
    | error e' => simp [hsend]
  · simp [subscribe_objects, hnone]
  · intro d
    have hsome : send_klippy_request transport SUBSCRIPTION_ENDPOINT
        (JVal.obj [("objects", subscriptionToJVal (mergeSubscription sub requested))])
        (some d) = Except.ok d := by
      unfold send_klippy_request
      rw [hf]
    simp [subscribe_objects, hsome]

def failingSubTransport : Transport := fun _ _ => Except.error ⟨"Klippy Host not connected", 503⟩

theorem subscribe_merge_survives_send_failure_witness :
    (subscribe_objects [("toolhead", none)] [("extruder", some ["temperature"])]
        failingSubTransport none).newSub
      = mergeSubscription [("toolhead", none)] [("extruder", some ["temperature"])] ∧
    (subscribe_objects [("toolhead", none)] [("extruder", some ["temperature"])]
        failingSubTransport none).result
      = Except.error ⟨"Klippy Host not connected", 503⟩ := by
  have h := subscribe_merge_survives_send_failure [("toolhead", none)]
    [("extruder", some ["temperature"])] failingSubTransport
    ⟨"Klippy Host not connected", 503⟩ rfl
  exact ⟨h.1 none, h.2.1⟩

/-- `KlippyAPI.query_objects`: send `objects/query` with `{'objects': spec}`
and unwrap the reply's `status` field. -/
def query_objects (transport : Transport) (objects : JVal) (default : Option JVal) :
    Except SrvError JVal :=
  match send_klippy_request transport STATUS_ENDPOINT (JVal.obj [("objects", objects)])
      default with
  | Except.error e => Except.error e
  | Except.ok r => Except.ok (unwrapKey "status" r)

/-- `KlippyAPI.get_object_list`: send `objects/list` with empty params and
unwrap the reply's `objects` field. -/
def get_object_list (transport : Transport) (default : Option JVal) :
    Except SrvError JVal :=
  match send_klippy_request transport OBJ_LIST_ENDPOINT (JVal.obj []) default with
  | Except.error e => Except.error e
  | Except.ok r => Except.ok (unwrapKey "objects" r)

def c8Reply : JVal :=
  JVal.obj [("status", JVal.obj [("toolhead",
    JVal.obj [("position", JVal.arr [JVal.n 0, JVal.n 0, JVal.n 0])])])]

/-- C8: query-objects returns the reply's `status` value when the reply is a
mapping containing `status` and otherwise the raw reply; get-object-list does
the same with `objects`; and on the spec's concrete example the unwrapped
toolhead status is returned. -/
theorem query_and_list_unwrap (transport : Transport) (objects : JVal)
    (default : Option JVal) (r : JVal)
    (hq : transport STATUS_ENDPOINT (JVal.obj [("objects", objects)]) = Except.ok r)
    (hl : transport OBJ_LIST_ENDPOINT (JVal.obj []) = Except.ok r) :
    (∀ kvs : List (String × JVal), ∀ v : JVal, r = JVal.obj kvs →
      lookupKey kvs "status" = some v →
      query_objects transport objects default = Except.ok v) ∧
    (hasKey r "status" = false →
      query_objects transport objects default = Except.ok r) ∧
    (∀ kvs : List (String × JVal), ∀ v : JVal, r = JVal.obj kvs →
      lookupKey kvs "objects" = some v →
      get_object_list transport default = Except.ok v) ∧
    (hasKey r "objects" = false →
      get_object_list transport default = Except.ok r) ∧
    query_objects (fun _ _ => Except.ok c8Reply)
        (JVal.obj [("toolhead", JVal.arr [JVal.s "position"])]) none
      = Except.ok (JVal.obj [("toolhead",
          JVal.obj [("position", JVal.arr [JVal.n 0, JVal.n 0, JVal.n 0])])]) := by
  have hsq := send_klippy_request_ok hq default
  have hsl := send_klippy_request_ok hl default
  refine ⟨?_, ?_, ?_, ?_, rfl⟩
  · intro kvs v hkvs hv
    subst hkvs
    simp [query_objects, hsq, unwrapKey_of_lookup hv]
  · intro hnk
    simp [query_objects, hsq, unwrapKey_of_no_key hnk]
  · intro kvs v hkvs hv
    subst hkvs
    simp [get_object_list, hsl, unwrapKey_of_lookup hv]
  · intro hnk
    simp [get_object_list, hsl, unwrapKey_of_no_key hnk]

def objListTransport : Transport :=
  fun _ _ => Except.ok (JVal.obj [("objects", JVal.arr [JVal.s "toolhead", JVal.s "extruder"])])

theorem query_and_list_unwrap_witness :
    get_object_list objListTransport none
      = Except.ok (JVal.arr [JVal.s "toolhead", JVal.s "extruder"]) ∧
    query_objects (fun _ _ => Except.ok c8Reply)
        (JVal.obj [("toolhead", JVal.arr [JVal.s "position"])]) none
      = Except.ok (JVal.obj [("toolhead",
          JVal.obj [("position", JVal.arr [JVal.n 0, JVal.n 0, JVal.n 0])])]) := by
  have h := query_and_list_unwrap objListTransport (JVal.obj []) none
    (JVal.obj [("objects", JVal.arr [JVal.s "toolhead", JVal.s "extruder"])]) rfl rfl
  exact ⟨h.2.2.1 [("objects", JVal.arr [JVal.s "toolhead", JVal.s "extruder"])]
    (JVal.arr [JVal.s "toolhead", JVal.s "extruder"]) rfl rfl, h.2.2.2.2⟩

/-- Observable process/filesystem state threaded through the staging flow:
regular files (path to byte content), directories, emitted events
(name, payload), the external metadata index, the expanded home directory,
the `statvfs` view (fragment size and free blocks as functions of the path
passed to `statvfs`), and the trace of requests dispatched on the transport. -/
structure ApiState where
  files : List (String × List Nat)
  dirs : List String
  events : List (String × String)
  metadata : List (String × JVal)
  home : String
  frsize : String → Nat
  bfree : String → Nat
  sent : List (String × JVal)

/-- `os.makedirs`: record the directory. -/
def makedirs (st : ApiState) (p : String) : ApiState :=
  { st with dirs := if p ∈ st.dirs then st.dirs else st.dirs ++ [p] }

/-- `shutil.rmtree p`: drop the directory, everything under it, and every
file under it. -/
def rmtree (st : ApiState) (p : String) : ApiState :=
  { st with
    dirs := st.dirs.filter (fun d => !(d == p || (p ++ "/").isPrefixOf d)),
    files := st.files.filter (fun f => !((p ++ "/").isPrefixOf f.1)) }

/-- `os.path.split`: split at the last separator; the head keeps no trailing
separators unless it consists only of separators. -/
def osPathSplit (p : String) : String × String :=
  let r := p.data.reverse
  let tl := (r.takeWhile (fun c => c != '/')).reverse
  let hd := (r.dropWhile (fun c => c != '/')).reverse
  match hd with
  | [] => ("", p)
  | _ =>
    let head := if hd.all (fun c => c == '/') then hd
                else (hd.reverse.dropWhile (fun c => c == '/')).reverse
    (⟨head⟩, ⟨tl⟩)

/-- Python `s.split('/')[0]`: the segment before the first separator. -/
def firstSeg (s : String) : String :=
  ⟨s.data.takeWhile (fun c => c != '/')⟩

/-- `os.path.join` for two components. -/
def osPathJoin (a b : String) : String :=
  match b.data with
  | '/' :: _ => b
  | _ =>
    if a = "" then b
    else
      match a.data.getLast? with
      | some '/' => a ++ b
      | _ => a ++ "/" ++ b

/-- `filename.replace('"', '\\"')` over the character list. -/
def escQuotesL : List Char → List Char
  | [] => []
  | c :: rest => if c = '"' then '\\' :: '"' :: escQuotesL rest else c :: escQuotesL rest

/-- The normalization `start_print` applies to a nonempty job reference:
strip one leading separator, then escape embedded double quotes. -/
def normalizeJobRef (filename : String) : String :=
  match filename.data with
  | [] => filename
  | c :: rest => ⟨escQuotesL (if c = '/' then rest else filename.data)⟩

mutual

/-- `json.dumps` with its default separators, for the metadata event. -/
def jdump : JVal → String
  | JVal.null => "null"
  | JVal.b true => "true"
  | JVal.b false => "false"
  | JVal.n i => toString i
  | JVal.s s => "\"" ++ s ++ "\""
  | JVal.arr xs => "[" ++ jdumpArr xs ++ "]"
  | JVal.obj kvs => "\x7b" ++ jdumpObj kvs ++ "\x7d"

def jdumpArr : List JVal → String
  | [] => ""
  | [x] => jdump x
  | x :: xs => jdump x ++ ", " ++ jdumpArr xs

def jdumpObj : List (String × JVal) → String
  | [] => ""
  | [kv] => "\"" ++ kv.1 ++ "\": " ++ jdump kv.2
  | kv :: kvs => "\"" ++ kv.1 ++ "\": " ++ jdump kv.2 ++ ", " ++ jdumpObj kvs

end

/-- `json.dumps` of `metadata.get(filename, None)`. -/
def jdumpOpt : Option JVal → String
  | none => "null"
  | some v => jdump v

/-- `KlippyAPI.copy_file_to_cache`: free space is `statvfs("/")`'s fragment
size times its free blocks; a strictly smaller file is copied, otherwise a
low-space gcode response is announced and a 500 server error raised. -/
def copy_file_to_cache (st : ApiState) (origin target : String) :
    ApiState × Except PyErr Unit :=
  let free_space := st.frsize "/" * st.bfree "/"
  match lookupKey st.files origin with
  | none => (st, Except.error PyErr.osError)
  | some content =>
    if content.length < free_space then
      ({ st with files := setKey st.files target content }, Except.ok ())
    else
      ({ st with events := st.events ++
          [("server:gcode_response", "!! Insufficient disk space, unable to read the file.")] },
       Except.error (PyErr.srv ⟨"Insufficient disk space, unable to read the file.", 500⟩))

/-- Lift a transport-level outcome into the staging flow's error type. -/
def liftPyErr : Except SrvError JVal → Except PyErr JVal
  | Except.ok a => Except.ok a
  | Except.error e => Except.error (PyErr.srv e)

/-- Dispatch a gcode script, recording the request in the trace
(`run_gcode` as called from `start_print`, with the sentinel default). -/
def run_gcode_traced (st : ApiState) (script : String) (transport : Transport) :
    ApiState × Except PyErr JVal :=
  ({ st with sent := st.sent ++ [(GCODE_ENDPOINT, scriptParams script)] },
   liftPyErr (send_klippy_request transport GCODE_ENDPOINT (scriptParams script) none))

/-- The staging block of `KlippyAPI.start_print` over an already-normalized
job reference: unless its first path segment already names `.cache`, ensure
the cache directory exists, delete it recursively, recreate it empty, look up
the job's metadata, stage the file through `copy_file_to_cache`, announce the
metadata event, and retarget the reference at the staged copy. -/
def stageJob (st : ApiState) (f2 : String) : ApiState × Except PyErr String :=
  if firstSeg (osPathSplit f2).1 ≠ ".cache" then
    let base_path := osPathJoin st.home "gcode_files"
    let target := osPathJoin ".cache" (osPathSplit f2).2
    let cache_path := osPathJoin base_path ".cache"
    let st1 := if cache_path ∈ st.dirs then st else makedirs st cache_path
    let st2 := makedirs (rmtree st1 cache_path) cache_path
    let md := lookupKey st2.metadata f2
    match copy_file_to_cache st2 (osPathJoin base_path f2) (osPathJoin base_path target) with
    | (st3, Except.error e) => (st3, Except.error e)
    | (st3, Except.ok _) =>
      ({ st3 with events := st3.events ++
          [("server:gcode_response", "// metadata=" ++ jdumpOpt md)] },
       Except.ok target)
  else (st, Except.ok f2)

/-- `KlippyAPI.start_print`: normalize the job reference, run the staging
block, then dispatch the generated `SDCARD_PRINT_FILE` script. -/
def start_print (st : ApiState) (filename : String) (transport : Transport) :
    ApiState × Except PyErr JVal :=
  if filename = "" then (st, Except.error PyErr.indexError)
  else
    match stageJob st (normalizeJobRef filename) with
    | (st', Except.error e) => (st', Except.error e)
    | (st', Except.ok fname) =>
      run_gcode_traced st' ("SDCARD_PRINT_FILE FILENAME=\"" ++ fname ++ "\"") transport

def okTransport : Transport := fun _ _ => Except.ok (JVal.s "ok")

def cacheJobState : ApiState :=
  { files := [("/home/pi/gcode_files/.cache/test.gcode", [1, 2, 3])],
    dirs := ["/home/pi/gcode_files", "/home/pi/gcode_files/.cache"],
    events := [], metadata := [], home := "/home/pi",
    frsize := fun _ => 4096, bfree := fun _ => 1024, sent := [] }

/-- C6: when the first path segment of the normalized job reference is the
cache directory, staging is skipped entirely: no directory is deleted or
recreated, no file is copied, no metadata event is announced, and the
normalized reference itself is embedded in the dispatched script. -/
theorem start_print_cache_skips_staging (st : ApiState) (filename : String)
    (transport : Transport) (h0 : filename ≠ "")
    (hc : firstSeg (osPathSplit (normalizeJobRef filename)).1 = ".cache") :
    start_print st filename transport
      = ({ st with sent := st.sent ++ [(GCODE_ENDPOINT, scriptParams
            ("SDCARD_PRINT_FILE FILENAME=\"" ++ normalizeJobRef filename ++ "\""))] },
         liftPyErr (send_klippy_request transport GCODE_ENDPOINT (scriptParams
            ("SDCARD_PRINT_FILE FILENAME=\"" ++ normalizeJobRef filename ++ "\"")) none)) := by
  have hs : stageJob st (normalizeJobRef filename)
      = (st, Except.ok (normalizeJobRef filename)) := by
    unfold stageJob
    rw [if_neg (not_not_intro hc)]
  unfold start_print
  rw [if_neg h0, hs]
  rfl

theorem start_print_cache_skips_staging_witness :
    start_print cacheJobState ".cache/test.gcode" okTransport
      = ({ cacheJobState with sent := [(GCODE_ENDPOINT, scriptParams
            "SDCARD_PRINT_FILE FILENAME=\".cache/test.gcode\"")] },
         Except.ok (JVal.s "ok")) := by
  exact start_print_cache_skips_staging cacheJobState ".cache/test.gcode" okTransport
    (by decide) rfl

theorem liftPyErr_ne_indexError (x : Except SrvError JVal) :
    liftPyErr x ≠ Except.error PyErr.indexError := by
  cases x <;> simp [liftPyErr]

theorem copy_file_to_cache_ne_indexError (st : ApiState) (origin target : String) :
    (copy_file_to_cache st origin target).2 ≠ Except.error PyErr.indexError := by
  unfold copy_file_to_cache
  cases lookupKey st.files origin with
  | none => simp
  | some content =>
    by_cases h : content.length < st.frsize "/" * st.bfree "/"
    · simp [h]
    · simp [h]

theorem stageJob_ne_indexError (st : ApiState) (f2 : String) :
    (stageJob st f2).2 ≠ Except.error PyErr.indexError := by
  unfold stageJob
  by_cases hc : firstSeg (osPathSplit f2).1 ≠ ".cache"
  · rw [if_pos hc]
    rcases hcopy : copy_file_to_cache
        (makedirs (rmtree (if osPathJoin (osPathJoin st.home "gcode_files") ".cache" ∈ st.dirs
            then st
            else makedirs st (osPathJoin (osPathJoin st.home "gcode_files") ".cache"))
          (osPathJoin (osPathJoin st.home "gcode_files") ".cache"))
          (osPathJoin (osPathJoin st.home "gcode_files") ".cache"))
        (osPathJoin (osPathJoin st.home "gcode_files") f2)
        (osPathJoin (osPathJoin st.home "gcode_files")
          (osPathJoin ".cache" (osPathSplit f2).2)) with ⟨st3, res⟩
    simp only [hcopy]
    have hres := copy_file_to_cache_ne_indexError
      (makedirs (rmtree (if osPathJoin (osPathJoin st.home "gcode_files") ".cache" ∈ st.dirs
          then st
          else makedirs st (osPathJoin (osPathJoin st.home "gcode_files") ".cache"))
        (osPathJoin (osPathJoin st.home "gcode_files") ".cache"))
        (osPathJoin (osPathJoin st.home "gcode_files") ".cache"))
      (osPathJoin (osPathJoin st.home "gcode_files") f2)
      (osPathJoin (osPathJoin st.home "gcode_files")
        (osPathJoin ".cache" (osPathSplit f2).2))
    rw [hcopy] at hres
    cases res with
    | error e => simpa using hres
    | ok u => simp
  · rw [if_neg hc]
    simp

/-- C9: calling start-print with the empty string fails with the indexing
error of the leading-separator check before any staging, directory deletion,
event or controller interaction (the state is returned untouched), while a
nonempty job reference never produces that indexing error. -/
theorem start_print_empty_fails (st : ApiState) (transport : Transport) :
    start_print st "" transport = (st, Except.error PyErr.indexError) ∧
    ∀ f : String, f ≠ "" →
      (start_print st f transport).2 ≠ Except.error PyErr.indexError := by
  constructor
  · unfold start_print
    rw [if_pos rfl]
  · intro f hf
    unfold start_print
    rw [if_neg hf]
    have hstage := stageJob_ne_indexError st (normalizeJobRef f)
    rcases hs : stageJob st (normalizeJobRef f) with ⟨st', res⟩
    rw [hs] at hstage
    cases res with
    | error e => simpa using hstage
    | ok fname => simp [run_gcode_traced, liftPyErr_ne_indexError]

theorem start_print_empty_fails_witness :
    start_print cacheJobState "" okTransport
      = (cacheJobState, Except.error PyErr.indexError) ∧
    (start_print cacheJobState "test.gcode" okTransport).2
      ≠ Except.error PyErr.indexError := by
  refine ⟨(start_print_empty_fails cacheJobState okTransport).1, ?_⟩
  exact (start_print_empty_fails cacheJobState okTransport).2 "test.gcode" (by decide)

/-- The staging claim as the spec words it, at one input: free space is
queried "on the filesystem holding the target path", so a source file
strictly smaller than the target filesystem's free space is copied
byte-for-byte to the target. Stated for comparison with
`copy_file_to_cache`, which queries `statvfs("/")`. -/
def stagingFitsTargetFs (st : ApiState) (origin target : String) : Prop :=
  ∀ content : List Nat, lookupKey st.files origin = some content →
    content.length < st.frsize target * st.bfree target →
      (copy_file_to_cache st origin target).2 = Except.ok () ∧
      lookupKey (copy_file_to_cache st origin target).1.files target = some content

/-- A machine whose root filesystem is nearly full while the filesystem
holding the gcode directory has ample space. -/
def lowRootState : ApiState :=
  { files := [("/home/pi/gcode_files/big.gcode", List.replicate 10 7)],
    dirs := ["/home/pi/gcode_files"], events := [], metadata := [], home := "/home/pi",
    frsize := fun p => if p = "/" then 1 else 4096,
    bfree := fun p => if p = "/" then 5 else 1024,
    sent := [] }

theorem staging_queries_root_counterexample :
    ¬ stagingFitsTargetFs lowRootState "/home/pi/gcode_files/big.gcode"
        "/home/pi/gcode_files/.cache/big.gcode" := by
  intro h
  have h2 := (h (List.replicate 10 7) rfl (by decide)).1
  have h3 : (copy_file_to_cache lowRootState "/home/pi/gcode_files/big.gcode"
      "/home/pi/gcode_files/.cache/big.gcode").2
      = Except.error (PyErr.srv ⟨"Insufficient disk space, unable to read the file.", 500⟩) :=
    rfl
  rw [h3] at h2
  exact Except.noConfusion h2

/-- C5 (amended): the staging operation queries free space via
`statvfs("/")` — the root filesystem, not necessarily the one holding the
target — and compares it with the source size; a strictly smaller file is
copied byte-for-byte to the target, otherwise a human-readable low-space
message is announced on the event channel and an insufficient-disk-space
error is raised with no copy performed (the file table is untouched). -/
theorem copy_file_to_cache_spec (st : ApiState) (origin target : String)
    (content : List Nat) (h : lookupKey st.files origin = some content) :
    (content.length < st.frsize "/" * st.bfree "/" →
      copy_file_to_cache st origin target
        = ({ st with files := setKey st.files target content }, Except.ok ())) ∧
    (st.frsize "/" * st.bfree "/" ≤ content.length →
      copy_file_to_cache st origin target
        = ({ st with events := st.events ++
              [("server:gcode_response",
                "!! Insufficient disk space, unable to read the file.")] },
           Except.error (PyErr.srv
             ⟨"Insufficient disk space, unable to read the file.", 500⟩))) := by
  constructor
  · intro hlt
    simp [copy_file_to_cache, h, hlt]
  · intro hge
    simp [copy_file_to_cache, h, not_lt.mpr hge]

theorem copy_file_to_cache_spec_witness :
    copy_file_to_cache cacheJobState "/home/pi/gcode_files/.cache/test.gcode"
        "/home/pi/gcode_files/.cache/copy.gcode"
      = ({ cacheJobState with files := (setKey cacheJobState.files
            "/home/pi/gcode_files/.cache/copy.gcode" [1, 2, 3]) }, Except.ok ()) ∧
    copy_file_to_cache lowRootState "/home/pi/gcode_files/big.gcode"
        "/home/pi/gcode_files/.cache/big.gcode"
      = ({ lowRootState with events :=
            [("server:gcode_response",
              "!! Insufficient disk space, unable to read the file.")] },
         Except.error (PyErr.srv
           ⟨"Insufficient disk space, unable to read the file.", 500⟩)) := by
  constructor
  · exact (copy_file_to_cache_spec cacheJobState "/home/pi/gcode_files/.cache/test.gcode"
      "/home/pi/gcode_files/.cache/copy.gcode" [1, 2, 3] rfl).1 (by decide)
  · exact (copy_file_to_cache_spec lowRootState "/home/pi/gcode_files/big.gcode"
      "/home/pi/gcode_files/.cache/big.gcode" (List.replicate 10 7) rfl).2 (by decide)
